import Mathlib

/-!
Shallow embedding of the QR-code attendance backend
(`src/controllers/attendanceController.js`, `src/routes/attendanceRoutes.js`).

Timestamps are milliseconds since the epoch, modelled as `Int`.
Identities (faculty and student ids) are modelled as `Nat`; Mongo document
ids are modelled as `String` (24-character hex in the real system).
The document store is a `List Session`; `findOne` is `List.find?`,
`save` of a fetched document writes back through the (unique) `_id`.
-/

/-- Session status: the `status` field holds `'active'` or `'expired'`. -/
inductive Status where
  | active
  | expired
deriving DecidableEq

/-- An `Attendance` document as created and used by the controllers
(the schema file `models/Attendance.js` is not in `src/`; the fields follow
the controllers' usage and the spec's data model `AttendanceSession`). -/
structure Session where
  id : String
  faculty : Nat
  subject : String
  classRoom : String
  sessionDate : Int
  qrCode : String
  markedStudents : List Nat
  status : Status
deriving DecidableEq

/-- The 2-minute validity window, in milliseconds (`2 * 60 * 1000`). -/
def validityMs : Int := 2 * 60 * 1000

/-- The redemption result of `markAttendance` (HTTP body/status pairs). -/
inductive MarkResult where
  | invalidOrExpired      -- 400 "Invalid or expired QR code"
  | duplicateRedemption   -- 400 "Attendance already marked for this session"
  | success               -- 200 "Attendance marked successfully"
deriving DecidableEq

/-- The `findOne` filter of `markAttendance`:
`{ qrCode, sessionDate: { $gte: new Date(Date.now() - 2*60*1000) }, status: 'active' }`. -/
def markMatches (s : Session) (code : String) (now : Int) : Bool :=
  s.qrCode == code && s.status == .active && decide (now - validityMs ≤ s.sessionDate)

/-- Write a fetched-and-mutated document back to the store by `_id`
(Mongoose `session.save()`; `_id` is unique in the collection). -/
def updateById (store : List Session) (s : Session) : List Session :=
  store.map (fun t => if t.id == s.id then s else t)

/-- `markAttendance` (`attendanceController.js:77-109`): look up an active,
in-window session by code; reject duplicates; otherwise append the student
to `markedStudents` and save. Returns the result and the updated store. -/
def markAttendance (store : List Session) (code : String) (student : Nat)
    (now : Int) : MarkResult × List Session :=
  match store.find? (fun s => markMatches s code now) with
  | none => (.invalidOrExpired, store)
  | some s =>
    if s.markedStudents.contains student then
      (.duplicateRedemption, store)
    else
      (.success, updateById store { s with markedStudents := s.markedStudents ++ [student] })

/-- The deferred expiry action scheduled by `generateSessionQR`
(`attendanceController.js:49-60`): re-read the session by id and, only if it
is still `active`, flip its status to `expired` and save. -/
def expireSession (store : List Session) (sessionId : String) : List Session :=
  match store.find? (fun s => s.id == sessionId) with
  | none => store
  | some s =>
    if s.status == .active then
      updateById store { s with status := .expired }
    else store

/-- Lower-case hex digit, as produced by Node's `Buffer.toString("hex")`. -/
def hexDigit (n : Nat) : Char :=
  if n < 10 then Char.ofNat (48 + n) else Char.ofNat (87 + n)

/-- Hex encoding of one byte: two lower-case hex digits. -/
def byteToHex (b : Nat) : List Char := [hexDigit (b / 16), hexDigit (b % 16)]

/-- `Buffer.toString("hex")` on a byte sequence. -/
def toHex (bytes : List Nat) : String := ⟨bytes.flatMap byteToHex⟩

/-- Byte count passed to `crypto.randomBytes` in `generateSessionQR`. -/
def randomBytesLen : Nat := 32

/-- Result of `generateSessionQR` (HTTP body/status pairs). -/
inductive CreateResult where
  | unauthenticated                                      -- 401
  | invalidInput                                         -- 400
  | internalFault                                        -- 500
  | ok (qrCode sessionId expiresIn : String)             -- 200
deriving DecidableEq

/-- `generateSessionQR` (`attendanceController.js:7-74`): requires a faculty
identity and non-empty subject/classroom; random generation is injected as
`randBytes?` (`none` models a `crypto.randomBytes` throw); on success persists
a new active session with an empty redeemer set, creation timestamp `now` and
the fresh id `newId`, and answers with the code, id and `"2 minutes"`. -/
def generateSessionQR (store : List Session) (facultyId : Option Nat)
    (subject classRoom : String) (now : Int) (newId : String)
    (randBytes : Option (List Nat)) : CreateResult × List Session :=
  match facultyId with
  | none => (.unauthenticated, store)
  | some fac =>
    if subject.isEmpty || classRoom.isEmpty then (.invalidInput, store)
    else
      match randBytes with
      | none => (.internalFault, store)
      | some bytes =>
        let qrData := toHex bytes
        let s : Session :=
          { id := newId, faculty := fac, subject := subject, classRoom := classRoom,
            sessionDate := now, qrCode := qrData, markedStudents := [], status := .active }
        (.ok qrData newId "2 minutes", store ++ [s])

/-- Calendar date of a timestamp: UTC day index, the denotation of
`sessionDate.toISOString().split("T")[0]` as a distinguishing key. -/
def dateOf (t : Int) : Int := t.ediv 86400000

/-- `Number(x.toFixed(2))`: round to 2 decimal places (ties away from zero for
the positive values that occur here). -/
def round2 (q : ℚ) : ℚ := (round (q * 100) : ℤ) / 100

/-- The Mongo query built by `getAttendanceReport`
(`attendanceController.js:117-124`): always filter by `faculty`, filter by
`subject` when given, and filter by the inclusive date range only when BOTH
`startDate` and `endDate` are given (`...(startDate && endDate && {...})`). -/
def reportQuery (faculty : Nat) (subject : Option String)
    (startDate endDate : Option Int) (s : Session) : Bool :=
  s.faculty == faculty
    && (match subject with
        | none => true
        | some sub => s.subject == sub)
    && (match startDate, endDate with
        | some a, some b => decide (a ≤ s.sessionDate) && decide (s.sessionDate ≤ b)
        | _, _ => true)

/-- One entry of the `students` array in a faculty report
(the populated `name`/`email` are metadata and omitted here). -/
structure StudentEntry where
  sid : Nat
  attendanceCount : Nat
  attendancePercentage : ℚ
deriving DecidableEq

/-- One subject's aggregate in a faculty report. -/
structure SubjectReport where
  totalSessions : Nat
  students : List StudentEntry
deriving DecidableEq

/-- `getAttendanceReport` (`attendanceController.js:112-172`): select the
faculty's sessions (optional subject and both-or-nothing date range); per
subject, `totalSessions` is the number of distinct calendar dates, and each
student's `attendanceCount` is the number of times they occur across the
selected records' `markedStudents` arrays; percentage is
`count / totalSessions * 100` rounded to 2 decimals. -/
def getAttendanceReport (store : List Session) (faculty : Nat)
    (subject : Option String) (startDate endDate : Option Int) :
    List (String × SubjectReport) :=
  let records := store.filter (reportQuery faculty subject startDate endDate)
  (records.map (·.subject)).dedup.map (fun sub =>
    let recs := records.filter (fun r => r.subject == sub)
    let total := ((recs.map (fun r => dateOf r.sessionDate)).dedup).length
    let studs := (recs.flatMap (·.markedStudents)).dedup
    (sub, { totalSessions := total,
            students := studs.map (fun st =>
              let cnt := (recs.flatMap (·.markedStudents)).count st
              { sid := st, attendanceCount := cnt,
                attendancePercentage := round2 ((cnt : ℚ) / (total : ℚ) * 100) }) }))

/-- One subject's entry in a student's own report. -/
structure StudentSubjectReport where
  totalClasses : Nat
  attended : Nat
  attendancePercentage : ℚ
deriving DecidableEq

/-- `getStudentAttendance` (`attendanceController.js:175-207`): select the
sessions whose `markedStudents` contains the student (optional subject
filter); per subject both `totalClasses` and `attended` count those sessions,
and the percentage is `attended / totalClasses * 100` rounded to 2 decimals. -/
def getStudentAttendance (store : List Session) (student : Nat)
    (subject : Option String) : List (String × StudentSubjectReport) :=
  let records := store.filter (fun s =>
    s.markedStudents.contains student
      && (match subject with
          | none => true
          | some sub => s.subject == sub))
  (records.map (·.subject)).dedup.map (fun sub =>
    let n := (records.filter (fun r => r.subject == sub)).length
    (sub, { totalClasses := n, attended := n,
            attendancePercentage := round2 ((n : ℚ) / (n : ℚ) * 100) }))

/-- Result of `getSessionDetails` (HTTP body/status pairs). -/
inductive DetailResult where
  | invalidInput                     -- 400 (missing or malformed session id)
  | unauthenticated                  -- 401 (faculty id missing)
  | notFound                         -- 404 "Session not found"
  | forbidden                        -- 403 "You don't have access to this session"
  | ok (subject classRoom : String) (sessionDate : Int)
       (status : Status) (students : List Nat)   -- 200, returned even if expired
deriving DecidableEq

/-- `getSessionDetails` (`attendanceController.js:210-308`): reject a missing
session id, then a missing faculty id, then an id whose length is not 24;
then check existence irrespective of owner (`Attendance.exists({_id})`), then
ownership (`findOne({_id, faculty})`); an owned session is returned with its
roster regardless of status. -/
def getSessionDetails (store : List Session) (sessionId : String)
    (facultyId : Option Nat) : DetailResult :=
  if sessionId.isEmpty then .invalidInput
  else
    match facultyId with
    | none => .unauthenticated
    | some fac =>
      if sessionId.length == 24 then
        if store.any (fun s => s.id == sessionId) then
          match store.find? (fun s => s.id == sessionId && s.faculty == fac) with
          | none => .forbidden
          | some s => .ok s.subject s.classRoom s.sessionDate s.status s.markedStudents
        else .notFound
      else .invalidInput

/-- Result of `exportSessionToExcel`, up to the workbook bytes: the data the
controller hands to the export collaborator, or the 404. -/
inductive ExportResult where
  | notFound                         -- 404 "Session not found"
  | ok (subject classRoom : String) (sessionDate : Int)
       (status : Status) (students : List Nat)
deriving DecidableEq

/-- `exportSessionToExcel` (`attendanceController.js:311-387`): a single
`findOne({_id: sessionId, faculty})`; `null` — whether the session is missing
or owned by a different faculty — yields the 404 "Session not found". -/
def exportSessionToExcel (store : List Session) (sessionId : String)
    (faculty : Nat) : ExportResult :=
  match store.find? (fun s => s.id == sessionId && s.faculty == faculty) with
  | none => .notFound
  | some s => .ok s.subject s.classRoom s.sessionDate s.status s.markedStudents

/-- HTTP method of a route registration. -/
inductive Method where
  | get
  | post
deriving DecidableEq

/-- One route registration: method, path (relative to `/api/attendance`), and
the controller function it dispatches to. -/
structure Route where
  method : Method
  path : String
  handler : String
deriving DecidableEq

/-- The router of `src/routes/attendanceRoutes.js`, in registration order
(auth/role middleware omitted; roles are noted in the handler contracts). -/
def attendanceRoutes : List Route :=
  [ ⟨.post, "/generate-qr", "generateSessionQR"⟩,
    ⟨.get, "/report", "getAttendanceReport"⟩,
    ⟨.get, "/session/:sessionId", "getSessionDetails"⟩,
    ⟨.get, "/export/:sessionId", "exportSessionToExcel"⟩,
    ⟨.post, "/mark", "markAttendance"⟩,
    ⟨.get, "/my-attendance", "getStudentAttendance"⟩ ]

/-- The shape of the JSON body read by `getAttendanceReport`
(`const { subject, startDate, endDate } = req.body`). -/
structure ReportBody where
  subject : Option String
  startDate : Option Int
  endDate : Option Int

/-- The report handler as wired to a request: all three optional parameters
are taken from the request body. -/
def getAttendanceReportFromBody (store : List Session) (faculty : Nat)
    (body : ReportBody) : List (String × SubjectReport) :=
  getAttendanceReport store faculty body.subject body.startDate body.endDate

/-! ## Concrete data used by witnesses and counterexamples -/

/-- A fresh active session created at time 0. -/
def sampleSession : Session :=
  { id := "aaaaaaaaaaaaaaaaaaaaaaaa", faculty := 1, subject := "CS101",
    classRoom := "A1", sessionDate := 0, qrCode := "code",
    markedStudents := [], status := .active }

/-- First of two same-calendar-date CS101 sessions, student 7 present. -/
def cs1 : Session :=
  { id := "bbbbbbbbbbbbbbbbbbbbbbbb", faculty := 1, subject := "CS101",
    classRoom := "A1", sessionDate := 1000, qrCode := "c1",
    markedStudents := [7], status := .expired }

/-- Second session of the same calendar date, student 7 present again. -/
def cs2 : Session :=
  { id := "cccccccccccccccccccccccc", faculty := 1, subject := "CS101",
    classRoom := "A1", sessionDate := 2000, qrCode := "c2",
    markedStudents := [7], status := .expired }

/-! ## Helper lemmas -/

/-- Unfolding of the redemption lookup filter. -/
theorem markMatches_iff (s : Session) (code : String) (now : Int) :
    markMatches s code now = true ↔
      s.qrCode = code ∧ s.status = Status.active ∧ now - validityMs ≤ s.sessionDate := by
  simp [markMatches, and_assoc]

/-- Writing back a document found by `find?` makes it the document found by
any filter it satisfies, provided the write keeps its id. -/
theorem find?_updateById (store : List Session) (p : Session → Bool)
    (s s' : Session) (hfind : store.find? p = some s) (hid : s'.id = s.id)
    (hp : p s' = true) : (updateById store s').find? p = some s' := by
  induction store with
  | nil => simp at hfind
  | cons t rest ih =>
    simp only [updateById, List.map_cons]
    by_cases ht : p t = true
    · rw [List.find?_cons_of_pos _ ht] at hfind
      have hts : t = s := by injection hfind
      have hc : (t.id == s'.id) = true := by rw [hts, hid]; exact beq_self_eq_true _
      rw [if_pos hc]
      exact List.find?_cons_of_pos _ hp
    · rw [List.find?_cons_of_neg _ ht] at hfind
      by_cases hti : (t.id == s'.id) = true
      · rw [if_pos hti]
        exact List.find?_cons_of_pos _ hp
      · rw [if_neg hti]
        rw [List.find?_cons_of_neg _ ht]
        exact ih hfind

/-- Pointwise-related map gives `Forall₂`. -/
theorem forall₂_map_self {α : Type} {R : α → α → Prop} (f : α → α)
    (l : List α) (h : ∀ a ∈ l, R a (f a)) : List.Forall₂ R l (l.map f) := by
  induction l with
  | nil => exact List.Forall₂.nil
  | cons a rest ih =>
    exact List.Forall₂.cons (h a (by simp))
      (ih fun b hb => h b (List.mem_cons_of_mem _ hb))

/-! ## C1 -/

/-- C1, counterexample: the claim says a redemption at exactly
creation + 2 minutes fails with `InvalidOrExpired`; on the code the `$gte`
window bound is inclusive, so at `now = sessionDate + validityMs` the
redemption succeeds. -/
theorem c1_boundary_counterexample :
    sampleSession.sessionDate + validityMs = 120000 ∧
      (markAttendance [sampleSession] "code" 7 120000).1 = MarkResult.success := by
  constructor
  · decide
  · decide

/-- C1 (amended): if no session has the given code with status `active` and
creation timestamp within the window — the window being inclusive at both
ends, `now - 2 minutes ≤ sessionDate`, so only requests strictly after
creation + 2 minutes are out of window — redemption fails with
`InvalidOrExpired` and the store is unchanged; and once every session
carrying the code is `expired`, redemption always fails this way. -/
theorem c1_redeem_fails_when_no_match (store : List Session) (code : String)
    (student : Nat) (now : Int) :
    ((∀ s ∈ store,
        ¬(s.qrCode = code ∧ s.status = Status.active ∧ now - validityMs ≤ s.sessionDate)) →
      markAttendance store code student now = (.invalidOrExpired, store))
    ∧ ((∀ s ∈ store, s.qrCode = code → s.status = Status.expired) →
      markAttendance store code student now = (.invalidOrExpired, store)) := by
  constructor
  · intro h
    have hf : store.find? (fun s => markMatches s code now) = none := by
      rw [List.find?_eq_none]
      intro s hs
      rw [markMatches_iff]
      exact h s hs
    simp [markAttendance, hf]
  · intro h
    have hf : store.find? (fun s => markMatches s code now) = none := by
      rw [List.find?_eq_none]
      intro s hs
      rw [markMatches_iff]
      rintro ⟨hq, hst, -⟩
      have h2 := h s hs hq
      rw [h2] at hst
      exact Status.noConfusion hst
    simp [markAttendance, hf]

/-- C1, witness: a concrete expired session is never redeemable. -/
theorem c1_witness :
    markAttendance [{ sampleSession with status := .expired }] "code" 9 60000
      = (MarkResult.invalidOrExpired, [{ sampleSession with status := .expired }]) :=
  (c1_redeem_fails_when_no_match
    [{ sampleSession with status := .expired }] "code" 9 60000).2 (by decide)

/-! ## C2 -/

/-- C2: (1) after a successful redemption, a second redemption by the same
student against the same code fails with `DuplicateRedemption` and leaves the
store (hence the redeemer set) unchanged; (2) redemption preserves the
at-most-once invariant of every redeemer set; (3) under unique document ids,
every redeemer set in the store only ever grows (the new value is the old
value plus a possibly-empty suffix). -/
theorem c2_duplicate_and_monotone :
    (∀ (store : List Session) (code : String) (student : Nat) (now : Int)
        (store' : List Session),
      markAttendance store code student now = (.success, store') →
      markAttendance store' code student now = (.duplicateRedemption, store'))
    ∧ (∀ (store : List Session) (code : String) (student : Nat) (now : Int),
      (∀ s ∈ store, s.markedStudents.Nodup) →
      ∀ s' ∈ (markAttendance store code student now).2, s'.markedStudents.Nodup)
    ∧ (∀ (store : List Session) (code : String) (student : Nat) (now : Int),
      (store.map Session.id).Nodup →
      List.Forall₂ (fun a b => ∃ extra, b.markedStudents = a.markedStudents ++ extra)
        store (markAttendance store code student now).2) := by
  refine ⟨?_, ?_, ?_⟩
  · intro store code student now store' h
    rcases hf : store.find? (fun s => markMatches s code now) with _ | s
    · simp [markAttendance, hf] at h
    · by_cases hc : s.markedStudents.contains student = true
      · simp only [markAttendance, hf] at h
        rw [if_pos hc] at h
        simp at h
      · simp only [markAttendance, hf] at h
        rw [if_neg hc] at h
        have hstore' : store'
            = updateById store { s with markedStudents := s.markedStudents ++ [student] } :=
          (congrArg Prod.snd h).symm
        subst hstore'
        have hps0 := List.find?_some hf
        have hps1 : markMatches { s with markedStudents := s.markedStudents ++ [student] }
            code now = true := hps0
        have hfind2 :
            (updateById store { s with markedStudents := s.markedStudents ++ [student] }).find?
              (fun s => markMatches s code now)
            = some { s with markedStudents := s.markedStudents ++ [student] } :=
          find?_updateById store _ s _ hf rfl hps1
        have hcontains :
            ({ s with markedStudents := s.markedStudents ++ [student] } :
              Session).markedStudents.contains student = true := by
          simp
        simp only [markAttendance, hfind2]
        rw [if_pos hcontains]
  · intro store code student now hnd s' hs'
    rcases hf : store.find? (fun s => markMatches s code now) with _ | s
    · simp only [markAttendance, hf] at hs'
      exact hnd s' hs'
    · by_cases hc : s.markedStudents.contains student = true
      · simp only [markAttendance, hf] at hs'
        rw [if_pos hc] at hs'
        exact hnd s' hs'
      · simp only [markAttendance, hf] at hs'
        rw [if_neg hc] at hs'
        simp only [updateById, List.mem_map] at hs'
        obtain ⟨t, ht, rfl⟩ := hs'
        by_cases hti :
            (t.id == ({ s with markedStudents := s.markedStudents ++ [student] } :
              Session).id) = true
        · rw [if_pos hti]
          have hnds : s.markedStudents.Nodup := hnd s (List.mem_of_find?_eq_some hf)
          have hns : student ∉ s.markedStudents := by
            intro hm
            exact hc (by simp [hm])
          rw [List.nodup_append]
          refine ⟨hnds, List.nodup_singleton _, fun a ha hb => ?_⟩
          rw [List.mem_singleton] at hb
          subst hb
          exact hns ha
        · rw [if_neg hti]
          exact hnd t ht
  · intro store code student now hids
    rcases hf : store.find? (fun s => markMatches s code now) with _ | s
    · simp only [markAttendance, hf]
      exact List.forall₂_same.mpr fun x _ => ⟨[], by simp⟩
    · by_cases hc : s.markedStudents.contains student = true
      · simp only [markAttendance, hf]
        rw [if_pos hc]
        exact List.forall₂_same.mpr fun x _ => ⟨[], by simp⟩
      · simp only [markAttendance, hf]
        rw [if_neg hc]
        simp only [updateById]
        apply forall₂_map_self
        intro t ht
        by_cases hti :
            (t.id == ({ s with markedStudents := s.markedStudents ++ [student] } :
              Session).id) = true
        · rw [if_pos hti]
          have hts : t = s :=
            List.inj_on_of_nodup_map hids ht (List.mem_of_find?_eq_some hf) (eq_of_beq hti)
          subst hts
          exact ⟨[student], rfl⟩
        · rw [if_neg hti]
          exact ⟨[], (List.append_nil _).symm⟩

/-- C2, witness: student 7 redeems, then redeems again: the second attempt is
`DuplicateRedemption` and the store is unchanged. -/
theorem c2_witness :
    markAttendance [{ sampleSession with markedStudents := [7] }] "code" 7 60000
      = (MarkResult.duplicateRedemption,
         [{ sampleSession with markedStudents := [7] }]) :=
  c2_duplicate_and_monotone.1 [sampleSession] "code" 7 60000
    [{ sampleSession with markedStudents := [7] }] (by decide)

/-! ## C3 -/

/-- Occurrence counting across the concatenated redeemer arrays equals, under
the per-session at-most-once invariant, the number of sessions whose redeemer
set contains the student. -/
theorem count_flatMap_marked (recs : List Session) (st : Nat)
    (hnd : ∀ r ∈ recs, r.markedStudents.Nodup) :
    (recs.flatMap (fun r => r.markedStudents)).count st
      = (recs.filter (fun r => r.markedStudents.contains st)).length := by
  induction recs with
  | nil => simp
  | cons r rest ih =>
    rw [List.flatMap_cons, List.count_append]
    by_cases hm : st ∈ r.markedStudents
    · have h1 : r.markedStudents.count st = 1 :=
        List.count_eq_one_of_mem (hnd r (by simp)) hm
      have h2 : r.markedStudents.contains st = true := by simp [hm]
      rw [h1, ih fun x hx => hnd x (List.mem_cons_of_mem _ hx)]
      simp only [List.filter_cons, h2, if_true, List.length_cons]
      omega
    · have h1 : r.markedStudents.count st = 0 := List.count_eq_zero_of_not_mem hm
      have h2 : r.markedStudents.contains st = false := by simp [hm]
      rw [h1, ih fun x hx => hnd x (List.mem_cons_of_mem _ hx)]
      simp [List.filter_cons, h2, hm]

/-- C3: in every faculty report, per subject, `totalSessions` counts the
distinct calendar dates of the selected sessions, each student's
`attendanceCount` counts the selected sessions (not dates) whose redeemer set
contains them, and the percentage is `count / totalSessions * 100` rounded to
2 decimals — so same-date sessions shrink only the denominator and
percentages above 100% arise. -/
theorem c3_faculty_report (store : List Session) (faculty : Nat)
    (subject : Option String) (startDate endDate : Option Int)
    (hnd : ∀ s ∈ store, s.markedStudents.Nodup) :
    ∀ sub rep, (sub, rep) ∈ getAttendanceReport store faculty subject startDate endDate →
      rep.totalSessions
        = ((((store.filter (reportQuery faculty subject startDate endDate)).filter
            (fun r => r.subject == sub)).map (fun r => dateOf r.sessionDate)).dedup).length
      ∧ ∀ e ∈ rep.students,
          e.attendanceCount
            = (((store.filter (reportQuery faculty subject startDate endDate)).filter
                (fun r => r.subject == sub)).filter
                (fun r => r.markedStudents.contains e.sid)).length
          ∧ e.attendancePercentage
            = round2 ((e.attendanceCount : ℚ) / (rep.totalSessions : ℚ) * 100) := by
  intro sub rep hmem
  simp only [getAttendanceReport, List.mem_map] at hmem
  obtain ⟨sub', hsub', heq⟩ := hmem
  injection heq with h1 h2
  subst h1
  subst h2
  refine ⟨rfl, ?_⟩
  intro e he
  simp only [List.mem_map] at he
  obtain ⟨st, hst, rfl⟩ := he
  refine ⟨?_, rfl⟩
  exact count_flatMap_marked _ st fun r hr =>
    hnd r (List.mem_of_mem_filter (List.mem_of_mem_filter hr))

/-- The expected CS101 aggregate for the two same-date sessions. -/
def csReport : SubjectReport :=
  { totalSessions := 1,
    students := [{ sid := 7, attendanceCount := 2, attendancePercentage := 200 }] }

/-- C3, witness: two CS101 sessions on the same calendar date, student 7
present at both: `totalSessions = 1`, `attendanceCount = 2`, percentage 200. -/
theorem c3_witness :
    getAttendanceReport [cs1, cs2] 1 none none none = [("CS101", csReport)]
    ∧ (∀ s ∈ [cs1, cs2], s.markedStudents.Nodup)
    ∧ (("CS101", csReport) ∈ getAttendanceReport [cs1, cs2] 1 none none none)
    ∧ (csReport.totalSessions
        = (((([cs1, cs2].filter (reportQuery 1 none none none)).filter
            (fun r => r.subject == "CS101")).map (fun r => dateOf r.sessionDate)).dedup).length
      ∧ ∀ e ∈ csReport.students,
          e.attendanceCount
            = ((([cs1, cs2].filter (reportQuery 1 none none none)).filter
                (fun r => r.subject == "CS101")).filter
                (fun r => r.markedStudents.contains e.sid)).length
          ∧ e.attendancePercentage
            = round2 ((e.attendanceCount : ℚ) / (csReport.totalSessions : ℚ) * 100)) := by
  have hrep : getAttendanceReport [cs1, cs2] 1 none none none = [("CS101", csReport)] := by
    simp [getAttendanceReport, reportQuery, cs1, cs2, csReport, dateOf, round2]
    norm_num [round_eq]
  have hmem : ("CS101", csReport) ∈ getAttendanceReport [cs1, cs2] 1 none none none := by
    rw [hrep]
    simp
  exact ⟨hrep, by decide, hmem,
    c3_faculty_report [cs1, cs2] 1 none none none (by decide) "CS101" csReport hmem⟩

/-! ## C4 -/

/-- A string of length 24 is not empty in the `!sessionId` sense. -/
theorem isEmpty_false_of_length24 (s : String) (h : s.length = 24) :
    s.isEmpty = false := by
  cases hie : s.isEmpty
  · rfl
  · exfalso
    have he : s = "" := (String.isEmpty_iff s).mp (by simp [hie])
    rw [he] at h
    exact absurd h (by decide)

/-- C4: `getSessionDetails` checks, in order: id format (a malformed id gives
`InvalidInput` with the store never consulted — the result is the same for
every store), existence irrespective of owner (`NotFound`), then ownership
(`Forbidden`, never `NotFound`, when another faculty owns it); an owned
session is returned with subject, classroom, date, status and roster even
when its status is `expired`, never `NotFound`. -/
theorem c4_session_detail (store : List Session) (sessionId : String) (fac : Nat) :
    (¬ sessionId.length = 24 →
      getSessionDetails store sessionId (some fac) = .invalidInput
      ∧ ∀ store₂, getSessionDetails store₂ sessionId (some fac)
          = getSessionDetails store sessionId (some fac))
    ∧ (sessionId.length = 24 → (∀ s ∈ store, ¬ s.id = sessionId) →
      getSessionDetails store sessionId (some fac) = .notFound)
    ∧ (sessionId.length = 24 → (∃ s ∈ store, s.id = sessionId) →
      (∀ s ∈ store, s.id = sessionId → ¬ s.faculty = fac) →
      getSessionDetails store sessionId (some fac) = .forbidden)
    ∧ (∀ s : Session, sessionId.length = 24 →
      store.find? (fun t => t.id == sessionId && t.faculty == fac) = some s →
      getSessionDetails store sessionId (some fac)
        = .ok s.subject s.classRoom s.sessionDate s.status s.markedStudents
      ∧ ¬ getSessionDetails store sessionId (some fac) = .notFound) := by
  refine ⟨?_, ?_, ?_, ?_⟩
  · intro h24
    cases hie : sessionId.isEmpty
    · have hlen : (sessionId.length == 24) = false := by simp [h24]
      exact ⟨by simp [getSessionDetails, hie, hlen],
        fun store₂ => by simp [getSessionDetails, hie, hlen]⟩
    · exact ⟨by simp [getSessionDetails, hie],
        fun store₂ => by simp [getSessionDetails, hie]⟩
  · intro h24 hnone
    have hie : sessionId.isEmpty = false := isEmpty_false_of_length24 _ h24
    have hlen : (sessionId.length == 24) = true := by simp [h24]
    have hany : store.any (fun s => s.id == sessionId) = false := by
      rw [List.any_eq_false]
      intro s hs
      simp only [beq_iff_eq]
      exact fun h => hnone s hs h
    simp [getSessionDetails, hie, hlen, hany]
  · intro h24 hex hown
    have hie : sessionId.isEmpty = false := isEmpty_false_of_length24 _ h24
    have hlen : (sessionId.length == 24) = true := by simp [h24]
    obtain ⟨s0, hs0, hid0⟩ := hex
    have hany : store.any (fun s => s.id == sessionId) = true := by
      rw [List.any_eq_true]
      exact ⟨s0, hs0, by simp [hid0]⟩
    have hfind : store.find? (fun s => s.id == sessionId && s.faculty == fac) = none := by
      rw [List.find?_eq_none]
      intro t ht
      simp only [Bool.and_eq_true, beq_iff_eq, not_and]
      exact fun hid => hown t ht hid
    simp [getSessionDetails, hie, hlen, hany, hfind]
  · intro s h24 hfind
    have hie : sessionId.isEmpty = false := isEmpty_false_of_length24 _ h24
    have hlen : (sessionId.length == 24) = true := by simp [h24]
    have hs : s ∈ store := List.mem_of_find?_eq_some hfind
    have hps := List.find?_some hfind
    simp only [Bool.and_eq_true, beq_iff_eq] at hps
    have hany : store.any (fun t => t.id == sessionId) = true := by
      rw [List.any_eq_true]
      exact ⟨s, hs, by simp [hps.1]⟩
    constructor
    · simp [getSessionDetails, hie, hlen, hany, hfind]
    · simp [getSessionDetails, hie, hlen, hany, hfind]

/-- A session owned by faculty 2, already expired, with two redeemers. -/
def otherSession : Session :=
  { id := "dddddddddddddddddddddddd", faculty := 2, subject := "M",
    classRoom := "B", sessionDate := 0, qrCode := "q",
    markedStudents := [3, 4], status := .expired }

/-- C4, witness: the owner gets the full detail of the expired session; a
different faculty gets `Forbidden`, not `NotFound`. -/
theorem c4_witness :
    (getSessionDetails [otherSession] "dddddddddddddddddddddddd" (some 2)
      = .ok otherSession.subject otherSession.classRoom otherSession.sessionDate
          otherSession.status otherSession.markedStudents
      ∧ ¬ getSessionDetails [otherSession] "dddddddddddddddddddddddd" (some 2)
          = .notFound)
    ∧ getSessionDetails [otherSession] "dddddddddddddddddddddddd" (some 1)
        = .forbidden :=
  ⟨(c4_session_detail [otherSession] "dddddddddddddddddddddddd" 2).2.2.2
      otherSession (by decide) (by decide),
   (c4_session_detail [otherSession] "dddddddddddddddddddddddd" 1).2.2.1
      (by decide) ⟨otherSession, by decide, by decide⟩ (by decide)⟩

/-! ## C5 -/

/-- C5: in a student's own report every subject entry has
`totalClasses = attended`, at least one counted session, and an
`attendancePercentage` of exactly 100. -/
theorem c5_student_report (store : List Session) (student : Nat)
    (subject : Option String) :
    ∀ sub rep, (sub, rep) ∈ getStudentAttendance store student subject →
      rep.totalClasses = rep.attended
      ∧ 1 ≤ rep.totalClasses
      ∧ rep.attendancePercentage = 100 := by
  intro sub rep hmem
  simp only [getStudentAttendance, List.mem_map] at hmem
  obtain ⟨sub', hsub', heq⟩ := hmem
  injection heq with h1 h2
  subst h1
  subst h2
  have hsub2 := List.mem_dedup.mp hsub'
  obtain ⟨r, hr, hrs⟩ := List.mem_map.mp hsub2
  have hrf : r ∈ (store.filter fun s =>
      s.markedStudents.contains student
        && match subject with
           | none => true
           | some sub2 => s.subject == sub2).filter (fun t => t.subject == sub') := by
    refine List.mem_filter.mpr ⟨hr, ?_⟩
    simp [hrs]
  have hpos : 0 < ((store.filter fun s =>
      s.markedStudents.contains student
        && match subject with
           | none => true
           | some sub2 => s.subject == sub2).filter (fun t => t.subject == sub')).length :=
    List.length_pos.mpr (List.ne_nil_of_mem hrf)
  refine ⟨rfl, hpos, ?_⟩
  show round2 ((((store.filter fun s =>
      s.markedStudents.contains student
        && match subject with
           | none => true
           | some sub2 => s.subject == sub2).filter (fun t => t.subject == sub')).length : ℚ)
    / (((store.filter fun s =>
      s.markedStudents.contains student
        && match subject with
           | none => true
           | some sub2 => s.subject == sub2).filter (fun t => t.subject == sub')).length : ℚ)
    * 100) = 100
  rw [div_self (by exact_mod_cast Nat.pos_iff_ne_zero.mp hpos), one_mul]
  norm_num [round2, round_eq]

/-- C5, witness: student 7's own report over the store `[cs1]`. -/
theorem c5_witness :
    ("CS101", ({ totalClasses := 1, attended := 1, attendancePercentage := 100 } :
        StudentSubjectReport)) ∈ getStudentAttendance [cs1] 7 none
    ∧ (({ totalClasses := 1, attended := 1, attendancePercentage := 100 } :
        StudentSubjectReport).totalClasses
        = ({ totalClasses := 1, attended := 1, attendancePercentage := 100 } :
        StudentSubjectReport).attended
      ∧ 1 ≤ ({ totalClasses := 1, attended := 1, attendancePercentage := 100 } :
        StudentSubjectReport).totalClasses
      ∧ ({ totalClasses := 1, attended := 1, attendancePercentage := 100 } :
        StudentSubjectReport).attendancePercentage = 100) := by
  have hmem : ("CS101", ({ totalClasses := 1, attended := 1, attendancePercentage := 100 } :
      StudentSubjectReport)) ∈ getStudentAttendance [cs1] 7 none := by
    simp [getStudentAttendance, cs1, round2]
    norm_num [round_eq]
  exact ⟨hmem, c5_student_report [cs1] 7 none "CS101" _ hmem⟩

/-! ## C6 -/

/-- The status either stays what it was or moves `active → expired`. -/
def statusStep (a b : Session) : Prop :=
  a.status = b.status ∨ (a.status = Status.active ∧ b.status = Status.expired)

/-- C6: under unique document ids, a redemption never changes any status and
the deferred expiry action only ever moves a status `active → expired`
(position by position, never the reverse); and the expiry action is
idempotent: when the session it re-reads is already `expired` it leaves the
store unchanged. -/
theorem c6_status_transitions :
    (∀ (store : List Session) (code : String) (student : Nat) (now : Int),
      (store.map Session.id).Nodup →
      List.Forall₂ statusStep store (markAttendance store code student now).2)
    ∧ (∀ (store : List Session) (sessionId : String),
      (store.map Session.id).Nodup →
      List.Forall₂ statusStep store (expireSession store sessionId))
    ∧ (∀ (store : List Session) (sessionId : String) (s : Session),
      store.find? (fun t => t.id == sessionId) = some s →
      s.status = Status.expired →
      expireSession store sessionId = store) := by
  refine ⟨?_, ?_, ?_⟩
  · intro store code student now hids
    rcases hf : store.find? (fun s => markMatches s code now) with _ | s
    · simp only [markAttendance, hf]
      exact List.forall₂_same.mpr fun x _ => Or.inl rfl
    · by_cases hc : s.markedStudents.contains student = true
      · simp only [markAttendance, hf]
        rw [if_pos hc]
        exact List.forall₂_same.mpr fun x _ => Or.inl rfl
      · simp only [markAttendance, hf]
        rw [if_neg hc]
        simp only [updateById]
        apply forall₂_map_self
        intro t ht
        by_cases hti :
            (t.id == ({ s with markedStudents := s.markedStudents ++ [student] } :
              Session).id) = true
        · rw [if_pos hti]
          have hts : t = s :=
            List.inj_on_of_nodup_map hids ht (List.mem_of_find?_eq_some hf) (eq_of_beq hti)
          subst hts
          exact Or.inl rfl
        · rw [if_neg hti]
          exact Or.inl rfl
  · intro store sessionId hids
    rcases hf : store.find? (fun s => s.id == sessionId) with _ | s
    · simp only [expireSession, hf]
      exact List.forall₂_same.mpr fun x _ => Or.inl rfl
    · by_cases hst : (s.status == Status.active) = true
      · simp only [expireSession, hf]
        rw [if_pos hst]
        simp only [updateById]
        apply forall₂_map_self
        intro t ht
        by_cases hti :
            (t.id == ({ s with status := Status.expired } : Session).id) = true
        · rw [if_pos hti]
          have hts : t = s :=
            List.inj_on_of_nodup_map hids ht (List.mem_of_find?_eq_some hf) (eq_of_beq hti)
          subst hts
          exact Or.inr ⟨eq_of_beq hst, rfl⟩
        · rw [if_neg hti]
          exact Or.inl rfl
      · simp only [expireSession, hf]
        rw [if_neg hst]
        exact List.forall₂_same.mpr fun x _ => Or.inl rfl
  · intro store sessionId s hf hst
    have hstb : (s.status == Status.active) = false := by
      rw [hst]
      decide
    simp only [expireSession, hf]
    rw [if_neg (by simp [hstb])]

/-- C6, witness: firing the expiry action on an already-expired session
leaves the store exactly as it was. -/
theorem c6_witness :
    expireSession [otherSession] "dddddddddddddddddddddddd" = [otherSession] :=
  (c6_status_transitions.2.2) [otherSession] "dddddddddddddddddddddddd"
    otherSession (by decide) (by decide)

/-! ## C7 -/

/-- Hex encoding doubles the length: one byte becomes two characters. -/
theorem toHex_length (bytes : List Nat) : (toHex bytes).length = 2 * bytes.length := by
  show (bytes.flatMap byteToHex).length = 2 * bytes.length
  induction bytes with
  | nil => simp
  | cons b rest ih =>
    rw [List.flatMap_cons, List.length_append, ih]
    simp [byteToHex]
    omega

/-- A non-empty string is not empty in the `!s` sense. -/
theorem isEmpty_false_of_ne (s : String) (h : ¬ s = "") : s.isEmpty = false := by
  cases hie : s.isEmpty
  · rfl
  · exact absurd ((String.isEmpty_iff s).mp (by simp [hie])) h

/-- C7: session creation fails `Unauthenticated` without a faculty identity,
`InvalidInput` on an empty subject or classroom, `InternalFault` when random
generation fails; otherwise it persists a new `active` session with creation
timestamp `now` and an empty redeemer set and returns the hex-encoded code,
the session id and the `"2 minutes"` validity; the code hex-encodes
`randomBytesLen = 32` random bytes, i.e. at least 128 bits of entropy. -/
theorem c7_generate_session (store : List Session) (facultyId : Option Nat)
    (subject classRoom : String) (now : Int) (newId : String)
    (randBytes : Option (List Nat)) :
    (facultyId = none →
      generateSessionQR store facultyId subject classRoom now newId randBytes
        = (.unauthenticated, store))
    ∧ (∀ fac, facultyId = some fac → (subject = "" ∨ classRoom = "") →
      generateSessionQR store facultyId subject classRoom now newId randBytes
        = (.invalidInput, store))
    ∧ (∀ fac, facultyId = some fac → ¬ subject = "" → ¬ classRoom = "" →
      randBytes = none →
      generateSessionQR store facultyId subject classRoom now newId randBytes
        = (.internalFault, store))
    ∧ (∀ fac bytes, facultyId = some fac → ¬ subject = "" → ¬ classRoom = "" →
      randBytes = some bytes →
      generateSessionQR store facultyId subject classRoom now newId randBytes
        = (.ok (toHex bytes) newId "2 minutes",
           store ++ [{ id := newId, faculty := fac, subject := subject,
                       classRoom := classRoom, sessionDate := now,
                       qrCode := toHex bytes, markedStudents := [],
                       status := .active }])
      ∧ (bytes.length = randomBytesLen →
          (toHex bytes).length = 2 * randomBytesLen ∧ 128 ≤ 8 * randomBytesLen)) := by
  refine ⟨?_, ?_, ?_, ?_⟩
  · intro h
    subst h
    rfl
  · intro fac hfac hor
    subst hfac
    have hb : (subject.isEmpty || classRoom.isEmpty) = true := by
      rcases hor with rfl | rfl
      · rw [show ("" : String).isEmpty = true by decide, Bool.true_or]
      · rw [show ("" : String).isEmpty = true by decide, Bool.or_true]
    simp [generateSessionQR, hb]
  · intro fac hfac hs hc hr
    subst hfac
    subst hr
    have hb : (subject.isEmpty || classRoom.isEmpty) = false := by
      rw [isEmpty_false_of_ne _ hs, isEmpty_false_of_ne _ hc]
      rfl
    simp [generateSessionQR, hb]
  · intro fac bytes hfac hs hc hr
    subst hfac
    subst hr
    have hb : (subject.isEmpty || classRoom.isEmpty) = false := by
      rw [isEmpty_false_of_ne _ hs, isEmpty_false_of_ne _ hc]
      rfl
    refine ⟨by simp [generateSessionQR, hb], fun hlen => ⟨?_, by decide⟩⟩
    rw [toHex_length, hlen]

/-- C7, witness: a concrete successful creation with 32 zero bytes. -/
theorem c7_witness :
    (generateSessionQR [] (some 1) "CS101" "A1" 0 "eeeeeeeeeeeeeeeeeeeeeeee"
        (some (List.replicate 32 0))
      = (.ok (toHex (List.replicate 32 0)) "eeeeeeeeeeeeeeeeeeeeeeee" "2 minutes",
         [] ++ [{ id := "eeeeeeeeeeeeeeeeeeeeeeee", faculty := 1, subject := "CS101",
                  classRoom := "A1", sessionDate := 0,
                  qrCode := toHex (List.replicate 32 0), markedStudents := [],
                  status := .active }])
      ∧ ((List.replicate 32 0).length = randomBytesLen →
          (toHex (List.replicate 32 0)).length = 2 * randomBytesLen
          ∧ 128 ≤ 8 * randomBytesLen)) :=
  (c7_generate_session [] (some 1) "CS101" "A1" 0 "eeeeeeeeeeeeeeeeeeeeeeee"
      (some (List.replicate 32 0))).2.2.2 1 (List.replicate 32 0) rfl
    (by decide) (by decide) rfl

/-! ## C8 -/

/-- C8, counterexample: there is no `POST /report` registration; the report
route is registered with `GET`. -/
theorem c8_counterexample :
    (⟨Method.post, "/report", "getAttendanceReport"⟩ : Route) ∉ attendanceRoutes
    ∧ (⟨Method.get, "/report", "getAttendanceReport"⟩ : Route) ∈ attendanceRoutes := by
  decide

/-- C8 (amended): the faculty report operation is exposed as
`GET /api/attendance/report` (the only registration dispatching to
`getAttendanceReport`), and the handler takes its optional subject,
startDate and endDate parameters from the request body. -/
theorem c8_report_route :
    ((⟨Method.get, "/report", "getAttendanceReport"⟩ : Route) ∈ attendanceRoutes)
    ∧ (∀ r ∈ attendanceRoutes, r.handler = "getAttendanceReport" →
        r.method = Method.get ∧ r.path = "/report")
    ∧ (∀ (store : List Session) (fac : Nat) (body : ReportBody),
        getAttendanceReportFromBody store fac body
          = getAttendanceReport store fac body.subject body.startDate body.endDate) :=
  ⟨by decide, by decide, fun _ _ _ => rfl⟩

/-- C8, witness: the report registration itself satisfies the ownership of
method `GET` and path `/report`, and a concrete body-driven call agrees with
the query-parameter form. -/
theorem c8_witness :
    (Method.get = Method.get ∧ "/report" = "/report")
    ∧ getAttendanceReportFromBody [] 1 ⟨none, none, none⟩
        = getAttendanceReport [] 1 none none none :=
  ⟨c8_report_route.2.1 ⟨Method.get, "/report", "getAttendanceReport"⟩ (by decide) rfl,
   c8_report_route.2.2 [] 1 ⟨none, none, none⟩⟩

/-! ## C9 -/

/-- C9: the date-range filter fires only when both bounds are present — with
exactly one bound given, the report equals the unbounded report. -/
theorem c9_half_range_ignored (store : List Session) (faculty : Nat)
    (subject : Option String) (a b : Int) :
    getAttendanceReport store faculty subject (some a) none
        = getAttendanceReport store faculty subject none none
    ∧ getAttendanceReport store faculty subject none (some b)
        = getAttendanceReport store faculty subject none none := by
  constructor
  · have h : reportQuery faculty subject (some a) none
        = reportQuery faculty subject none none := funext fun s => rfl
    simp only [getAttendanceReport, h]
  · have h : reportQuery faculty subject none (some b)
        = reportQuery faculty subject none none := funext fun s => rfl
    simp only [getAttendanceReport, h]

/-! ## C10 -/

/-- C10: when a session with the requested id exists but belongs to a
different faculty, the spreadsheet export answers `NotFound` — unlike
`getSessionDetails`, which answers `Forbidden` on the same store. -/
theorem c10_export_not_found (store : List Session) (sessionId : String)
    (fac : Nat) (hex : ∃ s ∈ store, s.id = sessionId)
    (hown : ∀ s ∈ store, s.id = sessionId → ¬ s.faculty = fac) :
    exportSessionToExcel store sessionId fac = .notFound
    ∧ (sessionId.length = 24 →
        getSessionDetails store sessionId (some fac) = .forbidden) := by
  have hfind : store.find? (fun s => s.id == sessionId && s.faculty == fac) = none := by
    rw [List.find?_eq_none]
    intro t ht
    simp only [Bool.and_eq_true, beq_iff_eq, not_and]
    exact fun hid => hown t ht hid
  constructor
  · simp [exportSessionToExcel, hfind]
  · intro h24
    have hie : sessionId.isEmpty = false := isEmpty_false_of_length24 _ h24
    have hlen : (sessionId.length == 24) = true := by simp [h24]
    obtain ⟨s0, hs0, hid0⟩ := hex
    have hany : store.any (fun s => s.id == sessionId) = true := by
      rw [List.any_eq_true]
      exact ⟨s0, hs0, by simp [hid0]⟩
    simp [getSessionDetails, hie, hlen, hany, hfind]

/-- C10, witness: faculty 1 asks for faculty 2's session: export says
`NotFound` while the detail endpoint says `Forbidden`. -/
theorem c10_witness :
    exportSessionToExcel [otherSession] "dddddddddddddddddddddddd" 1
      = ExportResult.notFound
    ∧ ("dddddddddddddddddddddddd".length = 24 →
        getSessionDetails [otherSession] "dddddddddddddddddddddddd" (some 1)
          = DetailResult.forbidden) :=
  c10_export_not_found [otherSession] "dddddddddddddddddddddddd" 1
    ⟨otherSession, by decide, by decide⟩ (by decide)
